import Mathlib

/-!
Verification of the per-node execution engine of the bonobo dataflow
pipeline (`bonobo/execution/contexts/node.py`).

The source file under scrutiny contains the `NodeExecutionContext` worker
(its `loop`, `step`, `get`, `send`, `kill`, `should_loop`, `handle_results`
methods) together with the module-level resolution protocol `isflag`,
`split_tokens` and `_resolve`.  Collaborating classes (`Bag`, `Token`,
`Input`, the base lifecycle context and the bonobo error classes) are not
part of the file; they are modelled from the specification where needed.

Python exceptions are modelled with `Option`/`Except`: a function that can
raise returns `none`/`.error` on the raising path.  Machine-level details
(threading, real time) are abstracted: the kill flag read by the generator
drain loop becomes an explicit schedule `killed : Nat → Bool` giving the
value of the flag at each checkpoint.
-/

namespace Bonobo

/-- Modelled from the spec: `Token` is a small closed set of singleton
control markers (`BEGIN`, `END`, `NOT_MODIFIED`) compared by identity
(`bonobo.structs.tokens` / `bonobo.constants`, outside the analysed file). -/
inductive Token where
  | BEGIN : Token
  | END : Token
  | NOT_MODIFIED : Token
deriving DecidableEq, Repr

/-- Modelled from the spec: the dynamic values that flow through the node
protocol — tokens, tuples, Bags (positional-argument sequence plus error /
loopback markers; `bonobo.structs.bags.Bag` is outside the analysed file),
and plain scalar data (`None`, integers, strings) standing for arbitrary
non-tuple, non-token payloads. -/
inductive Value where
  | token : Token → Value
  | tup : List Value → Value
  | vbag : List Value → Bool → Bool → Value
  | pyNone : Value
  | pyInt : Int → Value
  | pyStr : String → Value

/-- Modelled from the spec: a `Bag` holds an ordered sequence of positional
arguments, an optional error marker and an optional loopback marker
(keyword arguments are elided: no claim depends on them). -/
structure Bag where
  args : List Value
  errFlag : Bool
  loopFlag : Bool

/-- View a `Bag` as a dynamic `Value` (the form in which a transformation
may return an already-built bag). -/
def Bag.toValue (b : Bag) : Value :=
  .vbag b.args b.errFlag b.loopFlag

/-- Modelled from the spec: `bonobo.util.iserrorbag` — true iff the bag
carries a captured failure triple. -/
def iserrorbag (b : Bag) : Bool := b.errFlag

/-- Modelled from the spec: `bonobo.util.isloopbackbag` — true iff the bag
is flagged for re-delivery to its producing worker's input queue. -/
def isloopbackbag (b : Bag) : Bool := b.loopFlag

/-- Modelled from the spec: `bonobo.util.istuple` — Python
`isinstance(x, tuple)`. -/
def istuple : Value → Bool
  | .tup _ => true
  | _ => false

/-- Modelled from the spec: Python `isinstance(x, Token)`. -/
def istoken : Value → Bool
  | .token _ => true
  | _ => false

/-- Modelled from the spec: `bonobo.util.isbag` — Python
`isinstance(x, Bag)`. -/
def isbagv : Value → Bool
  | .vbag _ _ _ => true
  | _ => false

/-- Python truthiness of a `Value` (`elif results:` in `handle_results`):
empty tuples, `None`, `0` and `""` are falsy; tokens and bags use the
default object truthiness (true). -/
def truthy : Value → Bool
  | .tup xs => !xs.isEmpty
  | .pyNone => false
  | .pyInt n => n != 0
  | .pyStr s => !s.isEmpty
  | .token _ => true
  | .vbag _ _ _ => true

/-- `isflag` from node.py:
`isinstance(param, Token) and param in (NOT_MODIFIED, )`. -/
def isflag : Value → Bool
  | .token t => t = Token.NOT_MODIFIED
  | _ => false

/-- The index scan of `split_tokens` over a tuple's elements:
`i = 0; while isflag(output[i]): i += 1; return output[:i], output[i:]`.
The scan reads `output[i]` before testing `i < len(output)`, so a tuple
whose elements are all flags (including the empty tuple) raises
`IndexError`, modelled as `none`. -/
def splitFlags : List Value → Option (List Value × List Value)
  | [] => none
  | v :: rest =>
    if isflag v then
      match splitFlags rest with
      | none => none
      | some (fs, others) => some (v :: fs, others)
    else
      some ([], v :: rest)

/-- `split_tokens` from node.py: a bare `Token` gives `((output,), ())`, a
non-tuple gives `((), (output,))`, and a tuple is split at the end of its
maximal leading run of flag tokens by the index scan (which raises
`IndexError`, i.e. `none`, when every element is a flag). -/
def split_tokens (output : Value) : Option (List Value × List Value) :=
  if istoken output then
    some ([output], [])
  else if !istuple output then
    some ([], [output])
  else
    match output with
    | .tup xs => splitFlags xs
    | _ => none

/-- Modelled from the spec: `Bag(data)` — wrap a (possibly empty) tuple of
remaining output data into a new Bag with no error / loopback markers. -/
def Bag.ofArgs (data : List Value) : Bag :=
  ⟨data, false, false⟩

/-- `_resolve` from node.py: an output that is already a Bag is returned
unchanged; otherwise the output is split into `(tokens, data)`; if
`tokens` is exactly `(NOT_MODIFIED,)` the input bag itself is returned;
otherwise `data` is wrapped into a new Bag (`data`, being a tuple, is
never itself a Bag).  `none` propagates the `IndexError` raised by
`split_tokens`. -/
def _resolve (input_bag : Bag) (output : Value) : Option Bag :=
  match output with
  | .vbag a e l => some ⟨a, e, l⟩
  | _ =>
    match split_tokens output with
    | none => none
    | some (tokens, data) =>
      match tokens with
      | [Value.token Token.NOT_MODIFIED] => some input_bag
      | _ => some (Bag.ofArgs data)

/-- Modelled from the spec: the worker's input queue
(`bonobo.structs.inputs.Input`, outside the analysed file) — a FIFO buffer
of Bags with a one-way `Active → ShutDown` transition.  The policy of
draining buffered items after shutdown is implementation-defined in the
spec; the model drains the buffer first. -/
structure InputState where
  buffer : List Bag
  active : Bool

/-- Modelled from the spec: `Input.put` — enqueue at the tail. -/
def InputState.putq (q : InputState) (b : Bag) : InputState :=
  { q with buffer := q.buffer ++ [b] }

/-- Modelled from the spec: `Input.shutdown` — one-way transition to
`ShutDown`; idempotent. -/
def InputState.shutdownq (q : InputState) : InputState :=
  { q with active := false }

/-- The two failure conditions of a queue read: `Timeout`/`Empty`
(recoverable) and `InactiveReadable` (terminal). -/
inductive QErr where
  | emptyTimeout : QErr
  | inactiveReadable : QErr
deriving DecidableEq, Repr

/-- Modelled from the spec: `Input.get(timeout)` — pop the head if an item
is buffered; otherwise fail with `Timeout`/`Empty` while active and with
`InactiveReadable` once shut down and drained.  The queue state is
returned alongside so that the caller's state after a raised exception is
explicit. -/
def InputState.getq : InputState → Except QErr Bag × InputState
  | ⟨[], active⟩ =>
    (.error (if active then .emptyTimeout else .inactiveReadable), ⟨[], active⟩)
  | ⟨b :: rest, active⟩ => (.ok b, ⟨rest, active⟩)

/-- The observable state of a `NodeExecutionContext`: the `in`/`out`/`err`
statistics counters, the lifecycle flags (`started`/`stopped`/`defunct`
are modelled from the spec: they live in the base lifecycle context,
outside the analysed file; `killed` is the worker's own flag), the owned
input queue, the output sinks (each modelled by its queue contents) and
the sequence of bags handed to the error handler. -/
structure NodeState where
  stats_in : Nat
  stats_out : Nat
  stats_err : Nat
  started : Bool
  stopped : Bool
  defunct : Bool
  killed : Bool
  input : InputState
  outputs : List (List Bag)
  errors : List Bag

/-- `send` from node.py: unless `_control` is set, increment `out`; then
route the value to exactly one destination — an error bag is applied to
the error handler (modelled from the spec: the handler records the bag and
counts the `err` statistic), a loopback bag is re-enqueued onto the
worker's own input queue, and any other bag is put to every output sink in
the order of the outputs list. -/
def NodeState.send (s : NodeState) (value : Bag) (control : Bool) : NodeState :=
  let s1 := if control then s else { s with stats_out := s.stats_out + 1 }
  if iserrorbag value then
    { s1 with errors := s1.errors ++ [value], stats_err := s1.stats_err + 1 }
  else if isloopbackbag value then
    { s1 with input := s1.input.putq value }
  else
    { s1 with outputs := s1.outputs.map (fun q => q ++ [value]) }

/-- `get` from node.py: read from the input queue first, then increment the
`in` statistic, so that a read failing with `Timeout`/`Empty` or
`InactiveReadable` leaves the statistics unchanged.  The raised condition
is returned as `Except.error` together with the worker state as left
behind by the raising call. -/
def NodeState.get (s : NodeState) : Except QErr Bag × NodeState :=
  match s.input.getq with
  | (.error e, q) => (.error e, { s with input := q })
  | (.ok b, q) => (.ok b, { s with input := q, stats_in := s.stats_in + 1 })

/-- `should_loop` from node.py: `not any((self.defunct, self.killed))`. -/
def NodeState.should_loop (s : NodeState) : Bool :=
  !(s.defunct || s.killed)

/-- `kill` from node.py: raise `RuntimeError` (leaving the state untouched)
when the context has not started or has already stopped; otherwise set the
`killed` flag. -/
def NodeState.kill (s : NodeState) : Except String Unit × NodeState :=
  if !s.started then
    (.error "Cannot kill a node context that has not started yet.", s)
  else if s.stopped then
    (.error "Cannot kill a node context that has already stopped.", s)
  else
    (.ok (), { s with killed := true })

/-- A transformation's raw return value as classified by `handle_results`:
either a generator (modelled by the list of values it would yield;
`isinstance(results, GeneratorType)`) or a single plain value. -/
inductive Results where
  | gen : List Value → Results
  | value : Value → Results

/-- The generator branch of `handle_results`: before requesting each next
element the `killed` flag is read (`killed k` is the flag's value at the
checkpoint reached after `k` elements have been sent — a schedule, since
`kill` may be called from outside while draining; `fun _ => false` is a
worker that is never killed).  Returns the list of bags passed to `send`,
in order, and whether resolution raised (`IndexError` propagating out of
`_resolve`), in which case the bags sent before the raise are still
recorded. -/
def drain (killed : Nat → Bool) (input_bag : Bag) :
    List Value → Nat → List Bag × Bool
  | [], _ => ([], false)
  | v :: rest, k =>
    if killed k then ([], false)
    else
      match _resolve input_bag v with
      | none => ([], true)
      | some r =>
        let (sends, raised) := drain killed input_bag rest (k + 1)
        (r :: sends, raised)

/-- `handle_results` from node.py: a generator is drained cooperatively; a
truthy single value is resolved and sent once; a falsy value sends
nothing.  Returns the bags passed to `send` in order, and whether an
exception escaped. -/
def handle_results (killed : Nat → Bool) (input_bag : Bag) :
    Results → List Bag × Bool
  | .gen vs => drain killed input_bag vs 0
  | .value v =>
    if truthy v then
      match _resolve input_bag v with
      | none => ([], true)
      | some r => ([r], false)
    else ([], false)

/-- Perform a sequence of `send` calls (default `_control`, i.e. counted in
statistics) left to right. -/
def applySends (s : NodeState) (sends : List Bag) : NodeState :=
  sends.foldl (fun st b => st.send b false) s

/-- The exceptions that can escape one `step`: a queue-read failure
propagating out of `get`, or the `IndexError` from `split_tokens`. -/
inductive StepExc where
  | queueExc : QErr → StepExc
  | indexError : StepExc
deriving DecidableEq, Repr

/-- `step` from node.py: dequeue one input bag via `get` (which increments
`in` on success), apply the wrapped transformation to it (`transform`
models `input_bag.apply(self._stack)`), and flush the results.  Returns
the resulting state, the bags passed to `send` in order, and the escaping
exception if any. -/
def NodeState.step (s : NodeState) (killed : Nat → Bool)
    (transform : Bag → Results) : NodeState × List Bag × Option StepExc :=
  match s.get with
  | (.error e, s1) => (s1, [], some (.queueExc e))
  | (.ok input_bag, s1) =>
    let (sends, raised) := handle_results killed input_bag (transform input_bag)
    (applySends s1 sends, sends, if raised then some .indexError else none)

/-- The exception classes observable at the loop boundary.  Modelled from
the spec where the classes live outside the analysed file
(`bonobo.errors.InactiveReadableError` / `UnrecoverableError`,
`queue.Empty`); `otherException` stands for any other `Exception`
subclass, `otherBaseException` for any other `BaseException` that is not
an `Exception` (such as a cooperative cancellation signal). -/
inductive PyExc where
  | inactiveReadableError : PyExc
  | emptyExc : PyExc
  | unrecoverableError : PyExc
  | otherException : String → PyExc
  | otherBaseException : String → PyExc
deriving DecidableEq, Repr

/-- Python `isinstance(e, Exception)`: everything except the
`BaseException`-only failures. -/
def isExceptionSubclass : PyExc → Bool
  | .otherBaseException _ => false
  | _ => true

/-- Observable actions of one run of the main loop. -/
inductive LoopEvent where
  | stepAttempt : LoopEvent
  | errorReported : PyExc → LoopEvent
  | inputShutdown : LoopEvent
  | slept : LoopEvent
deriving DecidableEq, Repr

/-- `loop` from node.py as an event trace.  Each list entry is the outcome
of one `step` call (`none` = returned normally, `some e` = raised `e`);
the list also bounds the number of iterations observed.  The dispatch
mirrors the `except` clauses in order: `InactiveReadableError` exits
silently; `Empty` sleeps one polling period and retries;
`UnrecoverableError` is reported, shuts down the worker's own input queue
and exits; any other `Exception` is reported and the loop continues; any
other `BaseException` is reported and the loop exits. -/
def loopRun (s : NodeState) : List (Option PyExc) → List LoopEvent
  | [] => []
  | r :: rest =>
    if s.should_loop then
      LoopEvent.stepAttempt ::
        match r with
        | none => loopRun s rest
        | some .inactiveReadableError => []
        | some .emptyExc => LoopEvent.slept :: loopRun s rest
        | some .unrecoverableError =>
          [LoopEvent.errorReported .unrecoverableError, LoopEvent.inputShutdown]
        | some e =>
          if isExceptionSubclass e then
            LoopEvent.errorReported e :: loopRun s rest
          else
            [LoopEvent.errorReported e]
    else []

/-- Concrete bags and worker states used to instantiate the theorems below. -/
def errorBagW : Bag := ⟨[Value.pyStr "err"], true, false⟩

def loopBagW : Bag := ⟨[Value.pyStr "loop"], false, true⟩

def plainBagW : Bag := ⟨[Value.pyStr "data"], false, false⟩

def sampleState : NodeState :=
  { stats_in := 0, stats_out := 0, stats_err := 0,
    started := true, stopped := false, defunct := false, killed := false,
    input := ⟨[], true⟩, outputs := [[], []], errors := [] }

/-- The index scan consumes a maximal leading run of flags: on
`flags ++ v :: rest` with every element of `flags` a flag and `v` not a
flag, it returns `(flags, v :: rest)`. -/
theorem splitFlags_flag_prefix (flags rest : List Value) (v : Value)
    (hflags : ∀ f ∈ flags, isflag f = true) (hv : isflag v = false) :
    splitFlags (flags ++ v :: rest) = some (flags, v :: rest) := by
  induction flags with
  | nil => simp [splitFlags, hv]
  | cons f fs ih =>
    have hf : isflag f = true := hflags f (List.mem_cons_self f fs)
    have ihfs : splitFlags (fs ++ v :: rest) = some (fs, v :: rest) :=
      ih (fun g hg => hflags g (List.mem_cons_of_mem f hg))
    simp [splitFlags, hf, ihfs]

/-- Claim C1 (code-bug evidence): the spec says `_resolve(input_bag, output)`
returns `input_bag` whenever the flag prefix is exactly `NOT_MODIFIED`,
including the tuple `(NOT_MODIFIED,)` with no trailing data.  The code's
scan `while isflag(output[i])` reads one element past the flags, so on the
all-flag tuple `(NOT_MODIFIED,)` `split_tokens` raises `IndexError`
(modelled `none`) and `_resolve` propagates it instead of returning the
input bag — while the bare-token form and the flag-plus-trailing-data form
do pass the input bag through as claimed. -/
theorem C1_resolve_raises_on_flag_only_tuple :
    split_tokens (Value.tup [Value.token Token.NOT_MODIFIED]) = none ∧
    _resolve (Bag.ofArgs [Value.pyStr "x"])
        (Value.tup [Value.token Token.NOT_MODIFIED]) = none ∧
    _resolve (Bag.ofArgs [Value.pyStr "x"]) (Value.token Token.NOT_MODIFIED) =
      some (Bag.ofArgs [Value.pyStr "x"]) ∧
    _resolve (Bag.ofArgs [Value.pyStr "x"])
        (Value.tup [Value.token Token.NOT_MODIFIED, Value.pyInt 1]) =
      some (Bag.ofArgs [Value.pyStr "x"]) := by
  refine ⟨rfl, rfl, rfl, rfl⟩

/-- Claim C2: on a tuple made of zero or more leading flag tokens followed
by at least one non-flag element, `split_tokens` returns the maximal
leading run of flags and everything from the first non-flag element on
(later tokens included); a bare `Token` yields `((token,), ())` and a
non-tuple, non-token value yields `((), (value,))`. -/
theorem C2_split_tokens_maximal_prefix (flags rest : List Value) (v : Value)
    (hflags : ∀ f ∈ flags, isflag f = true) (hv : isflag v = false) :
    split_tokens (Value.tup (flags ++ v :: rest)) = some (flags, v :: rest) ∧
    (∀ t : Token, split_tokens (Value.token t) = some ([Value.token t], [])) ∧
    (∀ w : Value, istoken w = false → istuple w = false →
      split_tokens w = some ([], [w])) := by
  refine ⟨?_, ?_, ?_⟩
  · simp [split_tokens, istoken, istuple,
      splitFlags_flag_prefix flags rest v hflags hv]
  · intro t; rfl
  · intro w h1 h2; simp [split_tokens, h1, h2]

/-- Claim C2, instantiated: the tuple
`(NOT_MODIFIED, 2, BEGIN)` splits into `((NOT_MODIFIED,), (2, BEGIN))`
(the trailing `BEGIN` token is data, not a flag). -/
theorem C2_witness :
    split_tokens (Value.tup ([Value.token Token.NOT_MODIFIED] ++
        Value.pyInt 2 :: [Value.token Token.BEGIN])) =
      some ([Value.token Token.NOT_MODIFIED],
        Value.pyInt 2 :: [Value.token Token.BEGIN]) ∧
    (∀ t : Token, split_tokens (Value.token t) = some ([Value.token t], [])) ∧
    (∀ w : Value, istoken w = false → istuple w = false →
      split_tokens w = some ([], [w])) :=
  C2_split_tokens_maximal_prefix [Value.token Token.NOT_MODIFIED]
    [Value.token Token.BEGIN] (Value.pyInt 2) (by decide) (by decide)

/-- Claim C10: a single non-flag token (`BEGIN` or `END`) is not passed
through: `split_tokens` makes it the sole token with an empty remainder,
and since it is not `NOT_MODIFIED`, `_resolve` returns a newly constructed
Bag wrapping the empty remainder rather than the input bag. -/
theorem C10_non_flag_token_yields_new_bag (input_bag : Bag) (t : Token)
    (ht : t ≠ Token.NOT_MODIFIED) :
    split_tokens (Value.token t) = some ([Value.token t], []) ∧
    _resolve input_bag (Value.token t) = some (Bag.ofArgs []) ∧
    (input_bag ≠ Bag.ofArgs [] →
      _resolve input_bag (Value.token t) ≠ some input_bag) := by
  have hres : _resolve input_bag (Value.token t) = some (Bag.ofArgs []) := by
    cases t with
    | BEGIN => rfl
    | END => rfl
    | NOT_MODIFIED => exact absurd rfl ht
  refine ⟨rfl, hres, ?_⟩
  intro hne hcontra
  rw [hres] at hcontra
  exact hne (Option.some.inj hcontra).symm

/-- Claim C10, instantiated at the token `BEGIN` and the input bag
`Bag(7)`: `_resolve` yields the fresh `Bag(())`, not the input bag. -/
theorem C10_witness :
    split_tokens (Value.token Token.BEGIN) =
      some ([Value.token Token.BEGIN], []) ∧
    _resolve (Bag.mk [Value.pyInt 7] false false) (Value.token Token.BEGIN) =
      some (Bag.ofArgs []) ∧
    _resolve (Bag.mk [Value.pyInt 7] false false) (Value.token Token.BEGIN) ≠
      some (Bag.mk [Value.pyInt 7] false false) := by
  have h := C10_non_flag_token_yields_new_bag
    (Bag.mk [Value.pyInt 7] false false) Token.BEGIN (by decide)
  exact ⟨h.1, h.2.1, h.2.2 (by intro h2; simp [Bag.ofArgs] at h2)⟩

/-- Claim C5: `send` routes every value to exactly one of three mutually
exclusive destinations — an error-marked bag goes only to the error
handler (input queue and output sinks untouched), a loopback-marked bag is
only re-enqueued onto the worker's own input queue, and any other bag is
forwarded to every connected output sink (the same bag appended to each,
in the fixed order of the outputs list). -/
theorem C5_send_routes_exactly_one (s : NodeState) (value : Bag) :
    (iserrorbag value = true →
      (s.send value false).errors = s.errors ++ [value] ∧
      (s.send value false).input = s.input ∧
      (s.send value false).outputs = s.outputs) ∧
    (iserrorbag value = false → isloopbackbag value = true →
      (s.send value false).input.buffer = s.input.buffer ++ [value] ∧
      (s.send value false).errors = s.errors ∧
      (s.send value false).outputs = s.outputs) ∧
    (iserrorbag value = false → isloopbackbag value = false →
      (s.send value false).outputs = s.outputs.map (fun q => q ++ [value]) ∧
      (s.send value false).errors = s.errors ∧
      (s.send value false).input = s.input) := by
  refine ⟨fun h1 => ?_, fun h1 h2 => ?_, fun h1 h2 => ?_⟩
  · simp [NodeState.send, h1]
  · simp [NodeState.send, InputState.putq, h1, h2]
  · simp [NodeState.send, h1, h2]

/-- Claim C5, instantiated at an error bag, a loopback bag and a plain bag
on a worker with two output sinks. -/
theorem C5_witness :
    ((sampleState.send errorBagW false).errors =
        sampleState.errors ++ [errorBagW] ∧
      (sampleState.send errorBagW false).input = sampleState.input ∧
      (sampleState.send errorBagW false).outputs = sampleState.outputs) ∧
    ((sampleState.send loopBagW false).input.buffer =
        sampleState.input.buffer ++ [loopBagW] ∧
      (sampleState.send loopBagW false).errors = sampleState.errors ∧
      (sampleState.send loopBagW false).outputs = sampleState.outputs) ∧
    ((sampleState.send plainBagW false).outputs =
        sampleState.outputs.map (fun q => q ++ [plainBagW]) ∧
      (sampleState.send plainBagW false).errors = sampleState.errors ∧
      (sampleState.send plainBagW false).input = sampleState.input) :=
  ⟨(C5_send_routes_exactly_one sampleState errorBagW).1 rfl,
   (C5_send_routes_exactly_one sampleState loopBagW).2.1 rfl rfl,
   (C5_send_routes_exactly_one sampleState plainBagW).2.2 rfl rfl⟩

/-- Claim C6: `get` increments the `in` counter only after the queue read
returns an item: a read failing with `Timeout`/`Empty` or
`InactiveReadable` leaves every statistics counter unchanged, a successful
read increments `in` by one. -/
theorem C6_get_stats_only_on_success (s : NodeState) :
    (∀ e : QErr, (s.get).1 = Except.error e →
      (s.get).2.stats_in = s.stats_in ∧
      (s.get).2.stats_out = s.stats_out ∧
      (s.get).2.stats_err = s.stats_err) ∧
    (∀ b : Bag, (s.get).1 = Except.ok b →
      (s.get).2.stats_in = s.stats_in + 1) := by
  rcases hq : s.input with ⟨buf, act⟩
  cases buf with
  | nil =>
    refine ⟨fun e he => ?_, fun b hb => ?_⟩
    · simp [NodeState.get, InputState.getq, hq]
    · simp [NodeState.get, InputState.getq, hq] at hb
  | cons b0 rest =>
    refine ⟨fun e he => ?_, fun b hb => ?_⟩
    · simp [NodeState.get, InputState.getq, hq] at he
    · simp [NodeState.get, InputState.getq, hq]

/-- Claim C6, instantiated: an empty active queue (`Empty`), a shut-down
empty queue (`InactiveReadable`) and a one-element queue. -/
theorem C6_witness :
    (({ sampleState with input := ⟨[], true⟩ } : NodeState).get.2.stats_in =
        sampleState.stats_in ∧
      ({ sampleState with input := ⟨[], true⟩ } : NodeState).get.2.stats_out =
        sampleState.stats_out ∧
      ({ sampleState with input := ⟨[], true⟩ } : NodeState).get.2.stats_err =
        sampleState.stats_err) ∧
    (({ sampleState with input := ⟨[], false⟩ } : NodeState).get.2.stats_in =
        sampleState.stats_in ∧
      ({ sampleState with input := ⟨[], false⟩ } : NodeState).get.2.stats_out =
        sampleState.stats_out ∧
      ({ sampleState with input := ⟨[], false⟩ } : NodeState).get.2.stats_err =
        sampleState.stats_err) ∧
    ({ sampleState with input := ⟨[plainBagW], true⟩ } : NodeState).get.2.stats_in =
      sampleState.stats_in + 1 :=
  ⟨(C6_get_stats_only_on_success { sampleState with input := ⟨[], true⟩ }).1
      QErr.emptyTimeout rfl,
   (C6_get_stats_only_on_success { sampleState with input := ⟨[], false⟩ }).1
      QErr.inactiveReadable rfl,
   (C6_get_stats_only_on_success { sampleState with input := ⟨[plainBagW], true⟩ }).2
      plainBagW rfl⟩

/-- Claim C7: `kill` raises `RuntimeError` and leaves the state (in
particular the `killed` flag) unchanged when the context has not started
or has already stopped; otherwise it sets `killed` and `should_loop`
(defined as neither defunct nor killed) is false immediately after. -/
theorem C7_kill_precondition (s : NodeState) :
    (s.started = false →
      s.kill = (Except.error "Cannot kill a node context that has not started yet.", s)) ∧
    (s.started = true → s.stopped = true →
      s.kill = (Except.error "Cannot kill a node context that has already stopped.", s)) ∧
    (s.started = true → s.stopped = false →
      s.kill = (Except.ok (), { s with killed := true }) ∧
      (s.kill).2.killed = true ∧
      (s.kill).2.should_loop = false) := by
  refine ⟨fun h1 => ?_, fun h1 h2 => ?_, fun h1 h2 => ?_⟩
  · simp [NodeState.kill, h1]
  · simp [NodeState.kill, h1, h2]
  · simp [NodeState.kill, NodeState.should_loop, h1, h2]

/-- Claim C7, instantiated: a not-yet-started worker, an already-stopped
worker, and a running worker. -/
theorem C7_witness :
    ({ sampleState with started := false } : NodeState).kill =
      (Except.error "Cannot kill a node context that has not started yet.",
        { sampleState with started := false }) ∧
    ({ sampleState with stopped := true } : NodeState).kill =
      (Except.error "Cannot kill a node context that has already stopped.",
        { sampleState with stopped := true }) ∧
    (sampleState.kill = (Except.ok (), { sampleState with killed := true }) ∧
      (sampleState.kill).2.killed = true ∧
      (sampleState.kill).2.should_loop = false) :=
  ⟨(C7_kill_precondition { sampleState with started := false }).1 rfl,
   (C7_kill_precondition { sampleState with stopped := true }).2.1 rfl rfl,
   (C7_kill_precondition sampleState).2.2 rfl rfl⟩

/-- Claim C9: every `send` with the default control flag increments the
`out` counter by exactly one, whatever the routing outcome (error bag,
loopback bag, or fan-out — including to an empty outputs list): `out`
counts resolved values, not values actually forwarded downstream. -/
theorem C9_send_increments_out (s : NodeState) (value : Bag) :
    (s.send value false).stats_out = s.stats_out + 1 := by
  cases h1 : iserrorbag value <;> cases h2 : isloopbackbag value <;>
    simp [NodeState.send, h1, h2]

/-- Claim C3: on a worker whose `should_loop` holds, the main loop reacts
to a failure raised by `step` exactly as the `except` clauses prescribe:
`InactiveReadable` exits without reporting; `Timeout`/`Empty` sleeps one
polling period and retries without reporting; `Unrecoverable` reports,
shuts down the worker's own input queue and exits; any other ordinary
`Exception` reports and keeps looping; any other severe `BaseException`
reports and exits. -/
theorem C3_loop_failure_reactions (s : NodeState) (rest : List (Option PyExc))
    (name : String) (h : s.should_loop = true) :
    loopRun s (some PyExc.inactiveReadableError :: rest) =
      [LoopEvent.stepAttempt] ∧
    loopRun s (some PyExc.emptyExc :: rest) =
      LoopEvent.stepAttempt :: LoopEvent.slept :: loopRun s rest ∧
    loopRun s (some PyExc.unrecoverableError :: rest) =
      [LoopEvent.stepAttempt, LoopEvent.errorReported PyExc.unrecoverableError,
        LoopEvent.inputShutdown] ∧
    loopRun s (some (PyExc.otherException name) :: rest) =
      LoopEvent.stepAttempt ::
        LoopEvent.errorReported (PyExc.otherException name) :: loopRun s rest ∧
    loopRun s (some (PyExc.otherBaseException name) :: rest) =
      [LoopEvent.stepAttempt,
        LoopEvent.errorReported (PyExc.otherBaseException name)] := by
  refine ⟨?_, ?_, ?_, ?_, ?_⟩ <;> simp [loopRun, h, isExceptionSubclass]

/-- Claim C3, instantiated on a live worker with each failure kind as the
sole step outcome. -/
theorem C3_witness :
    loopRun sampleState [some PyExc.inactiveReadableError] =
      [LoopEvent.stepAttempt] ∧
    loopRun sampleState [some PyExc.emptyExc] =
      LoopEvent.stepAttempt :: LoopEvent.slept :: loopRun sampleState [] ∧
    loopRun sampleState [some PyExc.unrecoverableError] =
      [LoopEvent.stepAttempt, LoopEvent.errorReported PyExc.unrecoverableError,
        LoopEvent.inputShutdown] ∧
    loopRun sampleState [some (PyExc.otherException "ValueError")] =
      LoopEvent.stepAttempt ::
        LoopEvent.errorReported (PyExc.otherException "ValueError") ::
          loopRun sampleState [] ∧
    loopRun sampleState [some (PyExc.otherBaseException "ValueError")] =
      [LoopEvent.stepAttempt,
        LoopEvent.errorReported (PyExc.otherBaseException "ValueError")] :=
  C3_loop_failure_reactions sampleState [] "ValueError" rfl

/-- Draining a generator on a worker that is never killed sends the
resolution of every yielded value, in generation order. -/
theorem drain_no_kill (input_bag : Bag) :
    ∀ (gen : List Value) (k : Nat),
      (∀ v ∈ gen, (_resolve input_bag v).isSome = true) →
      drain (fun _ => false) input_bag gen k =
        (gen.map (fun v => (_resolve input_bag v).getD input_bag), false)
  | [], _, _ => by simp [drain]
  | v :: rest, k, hres => by
    have hv : (_resolve input_bag v).isSome = true := hres v (by simp)
    obtain ⟨r, hr⟩ := Option.isSome_iff_exists.mp hv
    have ihr := drain_no_kill input_bag rest (k + 1)
      (fun w hw => hres w (by simp [hw]))
    simp [drain, hr, ihr]

/-- Draining a generator on a worker whose kill flag turns true at
checkpoint `K` (having started at checkpoint `k ≤ K`) sends exactly the
resolutions of the first `K - k` yielded values and consumes nothing
beyond them. -/
theorem drain_killed_after (input_bag : Bag) :
    ∀ (gen : List Value) (K k : Nat),
      (∀ v ∈ gen, (_resolve input_bag v).isSome = true) →
      k ≤ K →
      drain (fun i => decide (K ≤ i)) input_bag gen k =
        ((gen.take (K - k)).map
          (fun v => (_resolve input_bag v).getD input_bag), false)
  | [], _, _, _, _ => by simp [drain]
  | v :: rest, K, k, hres, hk => by
    by_cases hkK : K ≤ k
    · have hKk : K - k = 0 := Nat.sub_eq_zero_of_le hkK
      simp [drain, hkK, hKk]
    · have hv : (_resolve input_bag v).isSome = true := hres v (by simp)
      obtain ⟨r, hr⟩ := Option.isSome_iff_exists.mp hv
      have ihr := drain_killed_after input_bag rest K (k + 1)
        (fun w hw => hres w (by simp [hw])) (Nat.lt_of_not_le hkK)
      have htake : K - k = (K - (k + 1)) + 1 := by omega
      simp [drain, hkK, hr, ihr, htake]

/-- Claim C4: a transformation returning a generator yielding `N` values
causes exactly `N` `send` calls on a never-killed worker, in generation
order, each the yielded value resolved against the same original input
bag; if the kill flag turns true once `K < N` values have been sent, the
check before each next element stops iteration and only the first `K`
values are consumed and sent. -/
theorem C4_generator_drain (input_bag : Bag) (gen : List Value) (K : Nat)
    (hres : ∀ v ∈ gen, (_resolve input_bag v).isSome = true) :
    handle_results (fun _ => false) input_bag (Results.gen gen) =
      (gen.map (fun v => (_resolve input_bag v).getD input_bag), false) ∧
    (handle_results (fun _ => false) input_bag (Results.gen gen)).1.length =
      gen.length ∧
    handle_results (fun i => decide (K ≤ i)) input_bag (Results.gen gen) =
      ((gen.take K).map (fun v => (_resolve input_bag v).getD input_bag),
        false) ∧
    (handle_results (fun i => decide (K ≤ i)) input_bag
        (Results.gen gen)).1.length = min K gen.length := by
  have h1 := drain_no_kill input_bag gen 0 hres
  have h2 := drain_killed_after input_bag gen K 0 hres (Nat.zero_le K)
  rw [Nat.sub_zero] at h2
  refine ⟨?_, ?_, ?_, ?_⟩
  · simpa [handle_results] using h1
  · simp [handle_results, h1]
  · simpa [handle_results] using h2
  · simp [handle_results, h2, List.length_take]

/-- Claim C4, instantiated on a three-element generator with the kill flag
turning true after two values have been sent. -/
theorem C4_witness :
    handle_results (fun _ => false) (Bag.ofArgs [])
        (Results.gen [Value.pyInt 1, Value.pyStr "a", Value.pyInt 3]) =
      ([Value.pyInt 1, Value.pyStr "a", Value.pyInt 3].map
        (fun v => (_resolve (Bag.ofArgs []) v).getD (Bag.ofArgs [])), false) ∧
    (handle_results (fun _ => false) (Bag.ofArgs [])
        (Results.gen [Value.pyInt 1, Value.pyStr "a", Value.pyInt 3])).1.length =
      [Value.pyInt 1, Value.pyStr "a", Value.pyInt 3].length ∧
    handle_results (fun i => decide (2 ≤ i)) (Bag.ofArgs [])
        (Results.gen [Value.pyInt 1, Value.pyStr "a", Value.pyInt 3]) =
      (([Value.pyInt 1, Value.pyStr "a", Value.pyInt 3].take 2).map
        (fun v => (_resolve (Bag.ofArgs []) v).getD (Bag.ofArgs [])), false) ∧
    (handle_results (fun i => decide (2 ≤ i)) (Bag.ofArgs [])
        (Results.gen [Value.pyInt 1, Value.pyStr "a", Value.pyInt 3])).1.length =
      min 2 [Value.pyInt 1, Value.pyStr "a", Value.pyInt 3].length :=
  C4_generator_drain (Bag.ofArgs [])
    [Value.pyInt 1, Value.pyStr "a", Value.pyInt 3] 2 (by decide)

/-- Claim C8: a transformation invocation returning a falsy non-generator
value (for instance the empty tuple) causes no `send` call at all and no
exception, while the successful dequeue earlier in the same `step` has
still incremented the `in` counter; nothing reaches the error handler or
the output sinks. -/
theorem C8_falsy_result_sends_nothing (s : NodeState) (b : Bag)
    (rest : List Bag) (act : Bool) (killed : Nat → Bool)
    (transform : Bag → Results) (v : Value)
    (hq : s.input = ⟨b :: rest, act⟩)
    (ht : transform b = Results.value v) (hv : truthy v = false) :
    (s.step killed transform).2.1 = [] ∧
    (s.step killed transform).2.2 = none ∧
    (s.step killed transform).1.stats_in = s.stats_in + 1 ∧
    (s.step killed transform).1.stats_out = s.stats_out ∧
    (s.step killed transform).1.outputs = s.outputs ∧
    (s.step killed transform).1.errors = s.errors := by
  have hget : s.get =
      (.ok b, { s with input := ⟨rest, act⟩, stats_in := s.stats_in + 1 }) := by
    simp [NodeState.get, InputState.getq, hq]
  simp [NodeState.step, hget, handle_results, ht, hv, applySends]

/-- Claim C8, instantiated: an identity-ish transformation returning the
empty tuple on a worker with one buffered message. -/
theorem C8_witness :
    (({ sampleState with input := ⟨[plainBagW], true⟩ } : NodeState).step
        (fun _ => false) (fun _ => Results.value (Value.tup []))).2.1 = [] ∧
    (({ sampleState with input := ⟨[plainBagW], true⟩ } : NodeState).step
        (fun _ => false) (fun _ => Results.value (Value.tup []))).2.2 = none ∧
    (({ sampleState with input := ⟨[plainBagW], true⟩ } : NodeState).step
        (fun _ => false) (fun _ => Results.value (Value.tup []))).1.stats_in =
      ({ sampleState with input := ⟨[plainBagW], true⟩ } : NodeState).stats_in + 1 ∧
    (({ sampleState with input := ⟨[plainBagW], true⟩ } : NodeState).step
        (fun _ => false) (fun _ => Results.value (Value.tup []))).1.stats_out =
      ({ sampleState with input := ⟨[plainBagW], true⟩ } : NodeState).stats_out ∧
    (({ sampleState with input := ⟨[plainBagW], true⟩ } : NodeState).step
        (fun _ => false) (fun _ => Results.value (Value.tup []))).1.outputs =
      ({ sampleState with input := ⟨[plainBagW], true⟩ } : NodeState).outputs ∧
    (({ sampleState with input := ⟨[plainBagW], true⟩ } : NodeState).step
        (fun _ => false) (fun _ => Results.value (Value.tup []))).1.errors =
      ({ sampleState with input := ⟨[plainBagW], true⟩ } : NodeState).errors :=
  C8_falsy_result_sends_nothing { sampleState with input := ⟨[plainBagW], true⟩ }
    plainBagW [] true (fun _ => false) (fun _ => Results.value (Value.tup []))
    (Value.tup []) rfl rfl rfl

end Bonobo
